import Mathlib

/-!
Shallow embedding of the iot-cloudwatch repository (src/main.py,
src/network.py, src/shelly.py, src/pzem0xx.py).

Modelling conventions:
* Python floats are modelled as rationals (no float arithmetic is relevant
  to the verified properties; values are carried, compared with sentinels).
* `datetime` instants are modelled as naturals; clock minutes as integers.
* Python exceptions are modelled with an explicit error type `PyErr` in the
  `Except` monad; a `try/except SomeClass` block becomes a pattern match on
  the outcome of the guarded call.
* The observable behaviour of external I/O (HTTP GET, ICMP ping, Modbus
  reads, the CloudWatch `put_metric_data` call, the pickle file) is an
  input to each embedded function, so that the embedded function is exactly
  the source code's control flow over those outcomes.
-/

/-- Python exception classes crossing the boundaries modelled here.
`exc code` stands for any other exception object, identified by a code. -/
inductive PyErr
  | valueError
  | typeError
  | keyError
  | jsonDecodeError
  | unpicklingError
  | exc (code : Nat)
  deriving DecidableEq

/-! ### Python string primitives used by the source -/

/-- `charsStart pat text` : does `text` start with `pat` (on character lists). -/
def charsStart : List Char → List Char → Bool
  | [], _ => true
  | _ :: _, [] => false
  | p :: ps, c :: cs => p == c && charsStart ps cs

/-- `charsIn pat text` : does `pat` occur as a contiguous run inside `text`. -/
def charsIn (pat : List Char) : List Char → Bool
  | [] => charsStart pat []
  | c :: cs => charsStart pat (c :: cs) || charsIn pat cs

/-- Models Python `s.startswith(pat)`. -/
def pyStartswith (s pat : String) : Bool := charsStart pat.toList s.toList

/-- Models Python `pat in s` (substring membership). -/
def pyIn (pat s : String) : Bool := charsIn pat.toList s.toList

/-! ### Data model (src/main.py lines 57-83) -/

structure DeviceStatus where
  name : String
  ping : ℚ
  deriving DecidableEq

structure MeterDeviceStatus where
  name : String
  voltage : ℚ
  current : ℚ
  energy_1h : Option Int := none
  deriving DecidableEq

structure SwitchDeviceStatus where
  name : String
  value : Int
  deriving DecidableEq

structure RelayDeviceStatus where
  name : String
  value : Int
  deriving DecidableEq

structure SiteStatus where
  id : String
  timestamp : Nat
  internet_ping : ℚ
  devices : List DeviceStatus := []
  meter_devices : List MeterDeviceStatus := []
  switch_devices : List SwitchDeviceStatus := []
  relay_devices : List RelayDeviceStatus := []
  deriving DecidableEq

/-! ### Network probe behaviour and `test_connection`

`httpx.TimeoutException` is a subclass of `httpx.TransportError`, so the
behaviour type distinguishes the two; each embedding of `test_connection`
maps them according to the `except` clauses it actually has. -/

/-- Outcome of the underlying `client.get(uri)` call. -/
inductive HttpOutcome
  | ok (d : ℚ)
  | timeoutExc
  | transportErr
  | otherExc (e : Nat)
  deriving DecidableEq

/-- Outcome of the underlying `pythonping.ping(target=uri, ...)` call. -/
inductive PingOutcome
  | ok (rtt : ℚ)
  | noSuccess
  | exc (e : Nat)
  deriving DecidableEq

/-- Behaviour of the transport layer for one `test_connection` call: what
the HTTP branch would observe, and what the ICMP branch would observe. -/
structure NetBehaviour where
  http : HttpOutcome
  icmp : PingOutcome
  deriving DecidableEq

/-- src/main.py lines 110-138, `test_connection`.  The HTTP branch catches
only `httpx.TransportError` (which includes timeouts), returning `-1`; a
non-transport exception propagates.  A URI with a scheme other than
`http://` raises `ValueError`.  The ICMP branch returns `-1` both when
`resp.success()` is false and on any exception (bare `except`). -/
def test_connection (uri : String) (timeout : ℚ) (b : NetBehaviour) : Except PyErr ℚ :=
  if pyStartswith uri "http://" then
    match b.http with
    | .ok d => .ok d
    | .timeoutExc => .ok (-1)
    | .transportErr => .ok (-1)
    | .otherExc e => .error (.exc e)
  else if pyIn "://" uri then
    .error .valueError
  else
    match b.icmp with
    | .ok rtt => .ok rtt
    | .noSuccess => .ok (-1)
    | .exc _ => .ok (-1)

namespace network

/-- src/network.py lines 38-70, `test_connection` (a variant not imported
by main.py).  The HTTP branch catches `httpx.TimeoutException` first and
returns the timeout value, then other `httpx.TransportError` returning
`-1`; the ICMP branch returns the timeout value when `resp.success()` is
false and `-1` on any exception. -/
def test_connection (uri : String) (timeout : ℚ) (b : NetBehaviour) : Except PyErr ℚ :=
  if pyStartswith uri "http://" then
    match b.http with
    | .ok d => .ok d
    | .timeoutExc => .ok timeout
    | .transportErr => .ok (-1)
    | .otherExc e => .error (.exc e)
  else if pyIn "://" uri then
    .error .valueError
  else
    match b.icmp with
    | .ok rtt => .ok rtt
    | .noSuccess => .ok timeout
    | .exc _ => .ok (-1)

end network

/-! ### Durable queue (src/main.py lines 342-361)

`collections.deque(init, maxlen=60*24*7)` keeps the last `maxlen` items of
`init`; `append` on a full deque discards the leftmost (oldest) item. -/

def QUEUE_MAXLEN : Nat := 60 * 24 * 7

/-- `lastN n l` is the suffix of `l` of length `min n l.length` (the most
recent `n` items of an oldest-first list). -/
def lastN (n : Nat) (l : List α) : List α := l.drop (l.length - n)

/-- `collections.deque(queue_list, maxlen=QUEUE_MAXLEN)`: keeps the last
`QUEUE_MAXLEN` entries of the loaded list. -/
def dequeInit (l : List SiteStatus) : List SiteStatus := lastN QUEUE_MAXLEN l

/-- `queue.append(status)` on a deque with `maxlen=QUEUE_MAXLEN`: appends at
the tail, evicting the head first when the deque is full. -/
def dequeAppend (q : List SiteStatus) (x : SiteStatus) : List SiteStatus :=
  if q.length < QUEUE_MAXLEN then q ++ [x] else q.tail ++ [x]

/-! ### Scheduler (src/main.py lines 351-357) -/

/-- Scheduler state: `last` models `last_minute`; `fired` records, oldest
first, the minutes at which a cycle has fired. -/
structure SchedState where
  last : Int
  fired : List Int
  deriving DecidableEq

/-- One wake of the scheduling loop at observed clock minute `minute`
(src/main.py lines 354-357): fire iff `(minute - last_minute) % 60 >=
period_m`, updating `last_minute` on fire.  Lean's `%` on `Int` is
`Int.emod`, which agrees with Python `%` for the positive modulus 60. -/
def schedStep (period_m : Int) (st : SchedState) (minute : Int) : SchedState :=
  if (minute - st.last) % 60 ≥ period_m then
    { last := minute, fired := st.fired ++ [minute] }
  else
    st

/-- The scheduling loop observed over a list of wake minutes, starting as
src/main.py line 351 does: `last_minute = (startMinute - period_m) % 60`. -/
def schedRun (period_m : Int) (startMinute : Int) (minutes : List Int) : SchedState :=
  minutes.foldl (schedStep period_m) { last := (startMinute - period_m) % 60, fired := [] }

/-! ### Queue persistence (src/main.py lines 342-349, 378-380) -/

/-- Observable state of the pickle backup file at startup. -/
inductive FileState
  | missing
  | unreadable
  | corrupt
  | intact (data : List SiteStatus)

/-- src/main.py lines 342-347: `open` + `pickle.load` guarded by
`except OSError`.  A missing file raises `FileNotFoundError <: OSError` and
an unreadable one `PermissionError <: OSError`, both caught, yielding `[]`;
a corrupt file makes `pickle.load` raise `pickle.UnpicklingError`, which is
not an `OSError` and propagates. -/
def loadQueue : FileState → Except PyErr (List SiteStatus)
  | .missing => .ok []
  | .unreadable => .ok []
  | .corrupt => .error .unpicklingError
  | .intact data => .ok data

/-- src/main.py lines 378-380: `pickle.dump(list(queue), file)` writes the
current queue contents; modelled as the resulting file state. -/
def saveQueue (q : List SiteStatus) : FileState := .intact q

/-! ### Drain loop (src/main.py lines 363-372) -/

/-- Outcome of one `report_metrics` call (the CloudWatch
`put_metric_data` submission) as seen by the drain loop. -/
inductive PubOutcome
  | success
  | endpointConnErr
  | otherExc (e : Nat)
  deriving DecidableEq

/-- Result of one drain attempt: the snapshots delivered (oldest first),
the snapshots remaining in the queue (oldest first), and the exception
that escaped the `except botocore.exceptions.EndpointConnectionError`
handler, if any. -/
structure DrainResult where
  delivered : List SiteStatus
  remaining : List SiteStatus
  uncaught : Option Nat
  deriving DecidableEq

/-- src/main.py lines 363-372: publish the front of the queue; pop it only
after the publish call returns; on `EndpointConnectionError` stop draining
(handled); on any other exception the loop is abandoned with the exception
propagating.  `k` is the 1-based index of the next publish call. -/
def drainLoop (publish : Nat → PubOutcome) : Nat → List SiteStatus → DrainResult
  | _, [] => ⟨[], [], none⟩
  | k, s :: rest =>
    match publish k with
    | .success =>
      let r := drainLoop publish (k + 1) rest
      ⟨s :: r.delivered, r.remaining, r.uncaught⟩
    | .endpointConnErr => ⟨[], s :: rest, none⟩
    | .otherExc e => ⟨[], s :: rest, some e⟩

/-- Models the exit path of `main` (src/main.py lines 363-380): the
`pickle.dump` at line 378 runs only when the scheduling loop is left
normally (stop signal); an exception escaping the drain loop propagates
past it and the queue is not saved.  Returns the saved contents, `none`
when the save is skipped. -/
def savedOnExit (r : DrainResult) : Option (List SiteStatus) :=
  match r.uncaught with
  | some _ => none
  | none => some r.remaining

/-! ### JSON values and Python dynamic primitives (for src/shelly.py) -/

/-- A decoded JSON value (`response.json()`). -/
inductive JVal
  | null
  | b (v : Bool)
  | i (v : Int)
  | f (v : ℚ)
  | s (v : String)
  | arr (elems : List JVal)
  | obj (fields : List (String × JVal))

/-- First binding of key `k` in an association list (Python dict lookup;
the decoded JSON dict has unique keys, first match suffices). -/
def lookupField (k : String) : List (String × JVal) → Option JVal
  | [] => none
  | (k', v) :: rest => if k' == k then some v else lookupField k rest

/-- Python `d[k]` on a decoded JSON value: `KeyError` when the key is
absent, `TypeError`-class failure when the value is not a dict. -/
def jindex (v : JVal) (k : String) : Except PyErr JVal :=
  match v with
  | .obj fields =>
    match lookupField k fields with
    | some x => .ok x
    | none => .error .keyError
  | _ => .error .typeError

/-- Python `d.get(k)` on a decoded JSON value (`None` when absent); fails
when the value is not a dict. -/
def jget (v : JVal) (k : String) : Except PyErr (Option JVal) :=
  match v with
  | .obj fields => .ok (lookupField k fields)
  | _ => .error .typeError

/-- Python truthiness of a decoded JSON value. -/
def pyFalsy : JVal → Bool
  | .null => true
  | .b v => !v
  | .i v => v == 0
  | .f v => v == 0
  | .s v => v == ""
  | .arr l => l.isEmpty
  | .obj l => l.isEmpty

/-- Python `x + 1` on a decoded JSON scalar (used for `raw['id'] + 1`);
booleans count as 0/1; non-numeric values raise `TypeError`.  Fractional
ids are not modelled (the device schema specifies integer ids). -/
def pyAddOne : JVal → Except PyErr Int
  | .i v => .ok (v + 1)
  | .b true => .ok 2
  | .b false => .ok 1
  | _ => .error .typeError

/-- Python `int(x)` on a decoded JSON value: booleans map to 0/1, floats
truncate toward zero, strings are parsed (raising `ValueError` when not a
numeral), other values raise `TypeError`. -/
def pyInt : JVal → Except PyErr Int
  | .b true => .ok 1
  | .b false => .ok 0
  | .i v => .ok v
  | .f v => .ok (v.num.tdiv (v.den : Int))
  | .s v =>
    match v.trim.toInt? with
    | some n => .ok n
    | none => .error .valueError
  | _ => .error .typeError

/-- Python `str(x)` / f-string interpolation of a decoded JSON value.
Container reprs are abbreviated (never exercised by well-formed devices). -/
def pyStr : JVal → String
  | .null => "None"
  | .b true => "True"
  | .b false => "False"
  | .i v => toString v
  | .f v => toString v
  | .s v => v
  | .arr _ => "[...]"
  | .obj _ => "\x7b...\x7d"

/-! ### src/shelly.py -/

/-- Outcome of one `client.get(...)` in `shelly.get_status`: a transport
error (caught), a response whose `.json()` decodes to `body`, or a
response whose `.json()` raises. -/
inductive HttpResp
  | transportErr
  | ok (body : JVal)
  | badJson

/-- src/shelly.py lines 8-11 (`id` already renumbered by `+ 1`; `name` and
`state` carried as decoded JSON values, converted later by main.py). -/
structure ShellyInput where
  id : Int
  name : JVal
  state : JVal

/-- src/shelly.py lines 13-18. -/
structure ShellyRelaySwitch where
  id : Int
  name : JVal
  output : JVal
  apower : JVal
  pf : JVal

/-- src/shelly.py lines 20-23 (`name` is the decoded
`resp_config['wifi']['ap']['ssid']`). -/
structure ShellyStatus where
  name : JVal
  inputs : List ShellyInput
  relays : List ShellyRelaySwitch

/-- src/shelly.py lines 46-69: the `for channel in range(16)` loop.  `ch`
is the current channel, the second argument the remaining fuel (16 at the
top).  `resp_status.get(input_key)` falsy breaks the loop; all other
lookups are `[...]` indexing and can raise `KeyError`. -/
def collectChannels (resp_config resp_status : JVal) :
    Nat → Nat → Except PyErr (List ShellyInput × List ShellyRelaySwitch)
  | _, 0 => .ok ([], [])
  | ch, fuel + 1 => do
    let input_key := "input:" ++ toString ch
    let switch_key := "switch:" ++ toString ch
    let raw_input? ← jget resp_status input_key
    match raw_input? with
    | none => .ok ([], [])
    | some raw_input =>
      if pyFalsy raw_input then .ok ([], []) else do
        let raw_input_config ← jindex resp_config input_key
        let raw_switch ← jindex resp_status switch_key
        let raw_switch_config ← jindex resp_config switch_key
        let iid ← pyAddOne (← jindex raw_input "id")
        let iname ← jindex raw_input_config "name"
        let istate ← jindex raw_input "state"
        let sid ← pyAddOne (← jindex raw_switch "id")
        let sname ← jindex raw_switch_config "name"
        let soutput ← jindex raw_switch "output"
        let sapower ← jindex raw_switch "apower"
        let spf ← jindex raw_switch "pf"
        let (ins, rels) ← collectChannels resp_config resp_status (ch + 1) fuel
        .ok (⟨iid, iname, istate⟩ :: ins, ⟨sid, sname, soutput, sapower, spf⟩ :: rels)

/-- src/shelly.py lines 26-71, `get_status`.  Only `httpx.TransportError`
on the two GETs is caught (yielding `None`); a malformed body makes
`.json()` or the subsequent dict lookups raise, and that propagates. -/
def get_status (cfgResp stResp : HttpResp) : Except PyErr (Option ShellyStatus) :=
  match cfgResp with
  | .transportErr => .ok none
  | .badJson => .error .jsonDecodeError
  | .ok resp_config =>
    match stResp with
    | .transportErr => .ok none
    | .badJson => .error .jsonDecodeError
    | .ok resp_status => do
      let wifi ← jindex resp_config "wifi"
      let ap ← jindex wifi "ap"
      let ssid ← jindex ap "ssid"
      let (ins, rels) ← collectChannels resp_config resp_status 0 16
      .ok (some ⟨ssid, ins, rels⟩)

/-! ### src/pzem0xx.py and the meter probe -/

/-- src/pzem0xx.py lines 17-24, `DCMeasurement`. -/
structure DCMeasurement where
  voltage : ℚ
  current : ℚ
  power : ℚ
  energy : ℚ
  alarm_voltage_high : Bool
  alarm_voltage_low : Bool
  deriving DecidableEq

/-- Outcome of `PZEM0XX(address).get_measurement()` for one probe. -/
inductive MeterOutcome
  | ok (m : DCMeasurement)
  | exc (e : Nat)
  deriving DecidableEq

/-- src/main.py lines 141-153, `pzem_measure`: the bare `except` turns any
exception into `None`; this probe never raises. -/
def pzem_measure (b : MeterOutcome) : Option DCMeasurement :=
  match b with
  | .ok m => some m
  | .exc _ => none

/-! ### Configuration and per-cycle external behaviour -/

/-- The configuration fields of `Env` (src/main.py lines 28-52) consumed
by the aggregation and publishing code.  `pzem_devices` keeps the
insertion order of the Python dict. -/
structure Env where
  site_id : String
  internet_host : String
  site_devices : List String := []
  device_timeout : ℚ := 1
  pzem_devices : List (String × Nat) := []
  shelly_devices : List String := []

/-- Everything the outside world does during one aggregation cycle:
the clock, and the outcome of each probe's underlying I/O. -/
structure Behaviours where
  now : Nat
  internet : NetBehaviour
  net : String → NetBehaviour
  meter : Nat → MeterOutcome
  shellyCfg : String → HttpResp
  shellySt : String → HttpResp

/-! ### Aggregation (src/main.py lines 156-206, `check_devices`) -/

/-- src/main.py lines 173-178: zip gathered pings back against the
configured device names. -/
def zipDevices (pings : List ℚ) (site_devices : List String) : List DeviceStatus :=
  (pings.zip site_devices).map fun pn => ⟨pn.2, pn.1⟩

/-- src/main.py lines 182-190: sequential meter probes; a `None`
measurement is omitted; `energy_1h` is never set (stays `None`). -/
def meterDevices (pzem_devices : List (String × Nat)) (meter : Nat → MeterOutcome) :
    List MeterDeviceStatus :=
  pzem_devices.filterMap fun na =>
    (pzem_measure (meter na.2)).map fun m =>
      { name := na.1, voltage := m.voltage, current := m.current }

/-- src/main.py lines 195-199: one `SwitchDeviceStatus` per reported input
channel; `int(shelly_switch['state'])` can raise on malformed state. -/
def switchOf (siteName : JVal) (inp : ShellyInput) : Except PyErr SwitchDeviceStatus := do
  let v ← pyInt inp.state
  .ok ⟨pyStr siteName ++ "/ch" ++ toString inp.id, v⟩

/-- src/main.py lines 200-204: one `RelayDeviceStatus` per reported relay
channel; `int(shelly_relay['output'])` can raise on malformed output. -/
def relayOf (siteName : JVal) (rel : ShellyRelaySwitch) : Except PyErr RelayDeviceStatus := do
  let v ← pyInt rel.output
  .ok ⟨pyStr siteName ++ "/ch" ++ toString rel.id, v⟩

/-- src/main.py lines 192-204: the per-host shelly stage, returning the
switch and relay entries contributed by one host. -/
def shellyHost (bc bs : HttpResp) :
    Except PyErr (List SwitchDeviceStatus × List RelayDeviceStatus) := do
  match ← get_status bc bs with
  | none => .ok ([], [])
  | some shelly_status => do
    let sw ← shelly_status.inputs.mapM (switchOf shelly_status.name)
    let rl ← shelly_status.relays.mapM (relayOf shelly_status.name)
    .ok (sw, rl)

/-- The whole shelly stage over the configured host list; switch and relay
sequences are each the per-host contributions concatenated in
configuration order.  Depends only on the shelly behaviours. -/
def shellyStage (shelly_devices : List String) (bc bs : String → HttpResp) :
    Except PyErr (List SwitchDeviceStatus × List RelayDeviceStatus) := do
  let parts ← shelly_devices.mapM fun h => shellyHost (bc h) (bs h)
  .ok ((parts.map Prod.fst).flatten, (parts.map Prod.snd).flatten)

/-- src/main.py lines 156-206, `check_devices`: probe the internet first,
fan out the network probes and re-zip in configuration order, probe the
meters sequentially (failures omitted), then the shelly hosts.  The
gathered ping vector is in task-creation order (see `gatherResults` below
for the completion-order model of `asyncio.gather`). -/
def check_devices (env : Env) (b : Behaviours) : Except PyErr SiteStatus := do
  let internet_ping ← test_connection env.internet_host env.device_timeout b.internet
  let pings ← env.site_devices.mapM fun name =>
    test_connection name env.device_timeout (b.net name)
  let devices := zipDevices pings env.site_devices
  let meter_devices := meterDevices env.pzem_devices b.meter
  let (switch_devices, relay_devices) ←
    shellyStage env.shelly_devices b.shellyCfg b.shellySt
  .ok { id := env.site_id, timestamp := b.now, internet_ping := internet_ping,
        devices := devices, meter_devices := meter_devices,
        switch_devices := switch_devices, relay_devices := relay_devices }

/-! ### `asyncio.gather` under arbitrary completion order

`check_devices` creates one task per configured device, in configuration
order, and `asyncio.gather(*tasks)` returns the result list in task order.
To make "regardless of completion order" a theorem rather than an
assumption, task completion is modelled explicitly: tasks finish one at a
time in the order given by `order` (task indices), each recording its own
result in its own slot, and `gather` reads the slots in task order. -/

/-- Slot state after the task with index `i` completes. -/
def taskComplete (results : Nat → ℚ) (acc : Nat → Option ℚ) (i : Nat) :
    Nat → Option ℚ :=
  fun j => if j = i then some (results i) else acc j

/-- Slot state after all completions in `order` have happened. -/
def runCompletions (results : Nat → ℚ) (order : List Nat) : Nat → Option ℚ :=
  order.foldl (taskComplete results) (fun _ => none)

/-- The list `asyncio.gather` returns for `n` tasks: slots read in task
order (a slot is `none` only if that task never completed). -/
def gatherResults (results : Nat → ℚ) (n : Nat) (order : List Nat) : List (Option ℚ) :=
  (List.range n).map (runCompletions results order)

/-! ### Publisher (src/main.py lines 209-318, `report_metrics`) -/

/-- The metric-name configuration fields consumed by `report_metrics`
(src/main.py lines 33-48). -/
structure MetricEnv where
  aws_metric_name : String
  aws_metric_name_voltage : String
  aws_metric_name_current : String
  aws_metric_name_energy : String
  aws_metric_name_switch : String
  aws_metric_name_relay : String
  deriving DecidableEq

/-- One `MetricDatumTypeDef` entry of the `put_metric_data` batch: every
point built by `report_metrics` has a single dimension
`'Name': 'SiteDevice'` whose value is `f'{status.id}/{device.name}'`. -/
structure MetricDatum where
  MetricName : String
  DimensionName : String
  DimensionValue : String
  Timestamp : Nat
  Value : ℚ
  Unit : String
  deriving DecidableEq

/-- src/main.py lines 210-222, `generate_metric_data`. -/
def generate_metric_data (menv : MetricEnv) (status : SiteStatus)
    (device : DeviceStatus) : MetricDatum :=
  { MetricName := menv.aws_metric_name,
    DimensionName := "SiteDevice",
    DimensionValue := status.id ++ "/" ++ device.name,
    Timestamp := status.timestamp,
    Value := device.ping,
    Unit := "Seconds" }

/-- Python truthiness of `device.energy_1h : int | None`
(src/main.py line 251, `if device.energy_1h:`): `None` and `0` are falsy. -/
def energyTruthy : Option Int → Bool
  | none => false
  | some n => n != 0

/-- src/main.py lines 224-266, `generate_electric_metrics_data`: voltage
and current points always; the energy point only when `device.energy_1h`
is truthy. -/
def generate_electric_metrics_data (menv : MetricEnv) (status : SiteStatus)
    (device : MeterDeviceStatus) : List MetricDatum :=
  [ { MetricName := menv.aws_metric_name_voltage,
      DimensionName := "SiteDevice",
      DimensionValue := status.id ++ "/" ++ device.name,
      Timestamp := status.timestamp,
      Value := device.voltage,
      Unit := "None" },
    { MetricName := menv.aws_metric_name_current,
      DimensionName := "SiteDevice",
      DimensionValue := status.id ++ "/" ++ device.name,
      Timestamp := status.timestamp,
      Value := device.current,
      Unit := "None" } ] ++
  (match device.energy_1h with
   | some n => if n != 0 then
      [ { MetricName := menv.aws_metric_name_energy,
          DimensionName := "SiteDevice",
          DimensionValue := status.id ++ "/" ++ device.name,
          Timestamp := status.timestamp,
          Value := (n : ℚ),
          Unit := "None" } ] else []
   | none => [])

/-- src/main.py lines 268-283, `generate_switch_metrics_data`. -/
def generate_switch_metrics_data (menv : MetricEnv) (status : SiteStatus) :
    List MetricDatum :=
  status.switch_devices.map fun switch_device =>
    { MetricName := menv.aws_metric_name_switch,
      DimensionName := "SiteDevice",
      DimensionValue := status.id ++ "/" ++ switch_device.name,
      Timestamp := status.timestamp,
      Value := (switch_device.value : ℚ),
      Unit := "None" }

/-- src/main.py lines 285-300, `generate_relay_metrics_data`. -/
def generate_relay_metrics_data (menv : MetricEnv) (status : SiteStatus) :
    List MetricDatum :=
  status.relay_devices.map fun relay_device =>
    { MetricName := menv.aws_metric_name_relay,
      DimensionName := "SiteDevice",
      DimensionValue := status.id ++ "/" ++ relay_device.name,
      Timestamp := status.timestamp,
      Value := (relay_device.value : ℚ),
      Unit := "None" }

/-- src/main.py lines 209-318, `report_metrics`: the `MetricData` batch
passed to `cw.put_metric_data` — the internet point first, then one point
per network device, the per-meter electric points, the switch points and
the relay points. -/
def report_metrics (menv : MetricEnv) (status : SiteStatus) : List MetricDatum :=
  generate_metric_data menv status ⟨"internet", status.internet_ping⟩ ::
  (status.devices.map (generate_metric_data menv status) ++
   (status.meter_devices.map (generate_electric_metrics_data menv status)).flatten ++
   generate_switch_metrics_data menv status ++
   generate_relay_metrics_data menv status)

/-- All device names occurring in a snapshot, plus the pseudo-device
`"internet"`; every batch point's dimension value is the site id joined by
`"/"` with one of these. -/
def snapshotNames (status : SiteStatus) : List String :=
  "internet" :: (status.devices.map DeviceStatus.name ++
    status.meter_devices.map MeterDeviceStatus.name ++
    status.switch_devices.map SwitchDeviceStatus.name ++
    status.relay_devices.map RelayDeviceStatus.name)

/-! ### Derived definitions used by the verification -/

/-- The exception escaping the drain loop for one publish outcome:
`EndpointConnectionError` is caught, anything else propagates. -/
def PubOutcome.escaped : PubOutcome → Option Nat
  | .otherExc e => some e
  | _ => none

/-- Endpoint shapes and transport behaviours under which `test_connection`
(src/main.py) cannot raise: an `http://` endpoint whose GET either
succeeds or fails inside `httpx.TransportError`, or a plain host (the
ICMP branch has a bare `except`). -/
def netCaught (uri : String) (b : NetBehaviour) : Bool :=
  if pyStartswith uri "http://" then
    match b.http with
    | .otherExc _ => false
    | _ => true
  else
    !(pyIn "://" uri)

/-- Shelly behaviours under which the per-host shelly stage cannot raise:
transport failures on either GET, or responses that decode, parse, and
whose channel states and outputs convert with `int(...)`. -/
def shellyCaught (bc bs : HttpResp) : Bool :=
  match shellyHost bc bs with
  | .ok _ => true
  | .error _ => false

/-- Modelled from the spec: the devices sequence the zip-correctness
property promises — each configured name, in configuration order, paired
with that device's own probe result (`i` is the index of the first name). -/
def specPairedDevices (results : Nat → ℚ) : List String → Nat → List DeviceStatus
  | [], _ => []
  | nm :: rest, i => ⟨nm, results i⟩ :: specPairedDevices results rest (i + 1)

/-! ### Concrete fixtures for witnesses and counterexamples -/

def snapA : SiteStatus := { id := "site", timestamp := 0, internet_ping := 1 }

def snapB : SiteStatus := { id := "site", timestamp := 1, internet_ping := 2 }

def snapC : SiteStatus := { id := "site", timestamp := 2, internet_ping := 3 }

/-- A publish stub that raises `EndpointConnectionError` on the 2nd call. -/
def pubFail2 : Nat → PubOutcome := fun k => if k == 2 then .endpointConnErr else .success

/-- A publish stub that raises a non-connectivity exception on the 2nd call. -/
def pubCrash2 : Nat → PubOutcome := fun k => if k == 2 then .otherExc 7 else .success

/-- Probe results for the zip-correctness witness: task `j` measures
`10 * (j + 1)` seconds. -/
def exampleResults : Nat → ℚ := fun j => 10 * ((j : ℚ) + 1)

def menvX : MetricEnv :=
  { aws_metric_name := "PING", aws_metric_name_voltage := "VOLT",
    aws_metric_name_current := "CURR", aws_metric_name_energy := "ENERGY",
    aws_metric_name_switch := "SWITCH", aws_metric_name_relay := "RELAY" }

/-- A snapshot holding one meter whose `energy_1h` is present (`Some 0`,
that is, not `None`) but falsy in Python. -/
def statusX : SiteStatus :=
  { id := "site", timestamp := 0, internet_ping := 1,
    meter_devices := [{ name := "m", voltage := 12, current := 3, energy_1h := some 0 }] }

/-- A configuration whose device list holds a URI with an unsupported
scheme (src/main.py line 125 raises `ValueError` for it). -/
def envBad : Env :=
  { site_id := "s", internet_host := "8.8.8.8", site_devices := ["ftp://x"] }

def behavBad : Behaviours :=
  { now := 0, internet := ⟨.ok 0, .ok 0⟩, net := fun _ => ⟨.ok 0, .ok 0⟩,
    meter := fun _ => .exc 0, shellyCfg := fun _ => .transportErr,
    shellySt := fun _ => .transportErr }

/-- A configuration with one network device, one meter and one shelly host. -/
def envW : Env :=
  { site_id := "s", internet_host := "8.8.8.8",
    site_devices := ["http://cam"], pzem_devices := [("m", 2)],
    shelly_devices := ["sh1"] }

/-- Behaviours where the network probe fails with a transport error, the
meter probe raises, and the shelly host is unreachable: every fault is of
the caught class. -/
def behavW : Behaviours :=
  { now := 5, internet := ⟨.ok 0, .ok (1/2)⟩,
    net := fun _ => ⟨.transportErr, .noSuccess⟩, meter := fun _ => .exc 5,
    shellyCfg := fun _ => .transportErr, shellySt := fun _ => .transportErr }

/-- A configuration with no network devices and one meter, for the
aggregator-output witness. -/
def envM : Env :=
  { site_id := "s", internet_host := "8.8.8.8", pzem_devices := [("m1", 1)] }

def behavM : Behaviours :=
  { now := 0, internet := ⟨.ok 0, .ok 0⟩, net := fun _ => ⟨.ok 0, .ok 0⟩,
    meter := fun _ => .ok ⟨24, 2, 48, 100, false, false⟩,
    shellyCfg := fun _ => .transportErr, shellySt := fun _ => .transportErr }

/-- The snapshot `check_devices` produces for `envM` and `behavM`. -/
def statusM : SiteStatus :=
  { id := "s", timestamp := 0, internet_ping := 0,
    meter_devices := [{ name := "m1", voltage := 24, current := 2 }] }

/-! ## Helper lemmas -/

/-- Generic shape of one drain attempt: if the first `m` publish calls
(call numbers `k, k+1, ...`) succeed and the `(k+m)`-th fails, the first
`m` snapshots are delivered in order and the rest retained in order. -/
theorem drainLoop_spec (publish : Nat → PubOutcome) (m : Nat) :
    ∀ (q : List SiteStatus) (k : Nat),
      (∀ i, k ≤ i → i < k + m → publish i = .success) →
      publish (k + m) ≠ .success →
      m < q.length →
      drainLoop publish k q =
        ⟨q.take m, q.drop m, (publish (k + m)).escaped⟩ := by
  induction m with
  | zero =>
    intro q k _ hfail hlen
    match q with
    | [] => simp at hlen
    | s :: rest =>
      rw [drainLoop]
      cases hp : publish k with
      | success => exact absurd (by simpa using hp) hfail
      | endpointConnErr => simp [hp, PubOutcome.escaped]
      | otherExc e => simp [hp, PubOutcome.escaped]
  | succ m ih =>
    intro q k hsucc hfail hlen
    match q with
    | [] => simp at hlen
    | s :: rest =>
      have hp : publish k = .success := hsucc k (Nat.le_refl k) (by omega)
      rw [drainLoop, hp]
      have hrest := ih rest (k + 1)
        (fun i h1 h2 => hsucc i (by omega) (by omega))
        (by have : k + 1 + m = k + (m + 1) := by omega
            rw [this]; exact hfail)
        (by simpa using Nat.lt_of_succ_lt_succ hlen)
      rw [hrest]
      have harith : k + 1 + m = k + (m + 1) := by omega
      simp [harith]

/-- The drain loop delivers a prefix and retains the matching suffix:
it never reorders, skips or duplicates. -/
theorem drainLoop_partition (publish : Nat → PubOutcome) :
    ∀ (q : List SiteStatus) (k : Nat),
      (drainLoop publish k q).delivered ++ (drainLoop publish k q).remaining = q := by
  intro q
  induction q with
  | nil => intro k; rfl
  | cons s rest ih =>
    intro k
    rw [drainLoop]
    cases publish k with
    | success => simpa using ih (k + 1)
    | endpointConnErr => rfl
    | otherExc e => rfl

/-! ## Claims -/

/-- C1: for every queue and publish function, the drain loop publishes
oldest-first, pops only after success, and on a connectivity failure at
the k-th call stops with snapshots 1..k-1 delivered and k..n retained in
order, the k-th at the front; delivered ++ remaining is always the
original queue, so no later snapshot is delivered before an earlier
undelivered one. -/
theorem C1_drain_fail_stop (publish : Nat → PubOutcome) (q : List SiteStatus) (k : Nat)
    (hk1 : 1 ≤ k) (hkq : k ≤ q.length)
    (hsucc : ∀ i < k, 1 ≤ i → publish i = .success)
    (hfail : publish k = .endpointConnErr) :
    drainLoop publish 1 q = ⟨q.take (k - 1), q.drop (k - 1), none⟩ ∧
    (drainLoop publish 1 q).delivered ++ (drainLoop publish 1 q).remaining = q := by
  have hk : 1 + (k - 1) = k := by omega
  have h := drainLoop_spec publish (k - 1) q 1
    (fun i h1 h2 => hsucc i (by omega) h1)
    (by rw [hk, hfail]; intro hc; exact PubOutcome.noConfusion hc)
    (by omega)
  rw [hk, hfail] at h
  exact ⟨h, drainLoop_partition publish q 1⟩

/-- C1 witness: queue of 3 snapshots, publish fails (connectivity) on the
2nd call: the 1st is delivered, exactly the 2nd and 3rd remain, the 2nd
at the front. -/
theorem C1_drain_fail_stop_witness :
    drainLoop pubFail2 1 [snapA, snapB, snapC] =
      ⟨[snapA], [snapB, snapC], none⟩ := by
  have h := C1_drain_fail_stop pubFail2 [snapA, snapB, snapC] 2 (by decide)
    (by decide) (by decide) (by decide)
  simpa using h.1

/-- C10: only `EndpointConnectionError` is treated as a connectivity
failure; any other exception on the k-th publish call leaves the front
snapshot unpopped, propagates out of the loop, and the queue-persistence
step before exit is skipped (nothing is saved on that path). -/
theorem C10_other_exception_escapes (publish : Nat → PubOutcome)
    (q : List SiteStatus) (k : Nat) (e : Nat)
    (hk1 : 1 ≤ k) (hkq : k ≤ q.length)
    (hsucc : ∀ i < k, 1 ≤ i → publish i = .success)
    (hfail : publish k = .otherExc e) :
    drainLoop publish 1 q = ⟨q.take (k - 1), q.drop (k - 1), some e⟩ ∧
    savedOnExit (drainLoop publish 1 q) = none := by
  have hk : 1 + (k - 1) = k := by omega
  have h := drainLoop_spec publish (k - 1) q 1
    (fun i h1 h2 => hsucc i (by omega) h1)
    (by rw [hk, hfail]; intro hc; exact PubOutcome.noConfusion hc)
    (by omega)
  rw [hk, hfail] at h
  exact ⟨h, by rw [h]; rfl⟩

/-- C10 witness: queue of 3, a non-connectivity exception on the 2nd
call: the 2nd and 3rd snapshots remain with the exception escaping, and
the on-exit save is skipped. -/
theorem C10_other_exception_escapes_witness :
    drainLoop pubCrash2 1 [snapA, snapB, snapC] =
      ⟨[snapA], [snapB, snapC], some 7⟩ ∧
    savedOnExit (drainLoop pubCrash2 1 [snapA, snapB, snapC]) = none := by
  have h := C10_other_exception_escapes pubCrash2 [snapA, snapB, snapC] 2 7
    (by decide) (by decide) (by decide) (by decide)
  exact ⟨by simpa using h.1, h.2⟩

/-- C5: a cycle fires on a wake exactly when
`(current - last) % 60 >= period_minutes`, after which `last` is set to
the current minute; at most one cycle fires per wake (so a delay across
several minute boundaries yields one catch-up cycle, shown concretely for
minutes 10 then 15); with period 1 and observed minutes
[10, 10, 11, 11, 12], cycles fire exactly at 10, 11, 12. -/
theorem C5_minute_cadence :
    (∀ (period_m : Int) (st : SchedState) (minute : Int),
      schedStep period_m st minute =
        if (minute - st.last) % 60 ≥ period_m then
          { last := minute, fired := st.fired ++ [minute] }
        else st) ∧
    (∀ (period_m : Int) (st : SchedState) (minute : Int),
      (schedStep period_m st minute).fired.length ≤ st.fired.length + 1) ∧
    (schedRun 1 10 [10, 10, 11, 11, 12]).fired = [10, 11, 12] ∧
    (schedRun 1 10 [10, 15]).fired = [10, 15] := by
  refine ⟨fun _ _ _ => rfl, fun period_m st minute => ?_, by decide, by decide⟩
  rw [schedStep]
  split
  · simp
  · omega

/-- C8 (amended): at startup, a missing or unreadable queue file yields an
empty queue; a readable intact file yields the previously saved sequence
(round-trip); but a corrupt file is not tolerated — `pickle.load` raises
`UnpicklingError`, which the `except OSError` handler does not catch. -/
theorem C8_load_fallback :
    loadQueue .missing = .ok [] ∧
    loadQueue .unreadable = .ok [] ∧
    (∀ q : List SiteStatus, loadQueue (saveQueue q) = .ok q) ∧
    loadQueue .corrupt = .error .unpicklingError :=
  ⟨rfl, rfl, fun _ => rfl, rfl⟩

/-- C8 counterexample: a corrupt queue file does not yield an empty queue
— the load raises instead of falling back. -/
theorem C8_corrupt_file_raises : loadQueue .corrupt ≠ .ok [] := by
  intro h
  exact Except.noConfusion h

theorem lastN_of_le {l : List α} {n : Nat} (h : l.length ≤ n) : lastN n l = l := by
  unfold lastN
  rw [Nat.sub_eq_zero_of_le h, List.drop_zero]

theorem lastN_length_le (n : Nat) (l : List α) : (lastN n l).length ≤ n := by
  simp only [lastN, List.length_drop]
  omega

theorem lastN_cons_of_le {l : List α} {n : Nat} (y : α) (h : n ≤ l.length) :
    lastN n (y :: l) = lastN n l := by
  unfold lastN
  have : (y :: l).length - n = (l.length - n) + 1 := by
    simp only [List.length_cons]; omega
  rw [this, List.drop_succ_cons]

/-- Pushing through the bounded deque is computing the most recent
`QUEUE_MAXLEN` elements of everything ever pushed. -/
theorem foldl_dequeAppend (xs : List SiteStatus) :
    ∀ q : List SiteStatus, q.length ≤ QUEUE_MAXLEN →
      xs.foldl dequeAppend q = lastN QUEUE_MAXLEN (q ++ xs) := by
  induction xs with
  | nil =>
    intro q h
    simpa using (lastN_of_le h).symm
  | cons x rest ih =>
    intro q h
    rw [List.foldl_cons]
    by_cases hlt : q.length < QUEUE_MAXLEN
    · have happ : dequeAppend q x = q ++ [x] := by rw [dequeAppend, if_pos hlt]
      rw [happ, ih (q ++ [x]) (by simpa using hlt)]
      simp
    · have hfull : q.length = QUEUE_MAXLEN := by omega
      obtain ⟨y, t, rfl⟩ : ∃ y t, q = y :: t := by
        cases q with
        | nil => simp [QUEUE_MAXLEN] at hfull
        | cons a b => exact ⟨a, b, rfl⟩
      have ht : t.length + 1 = QUEUE_MAXLEN := by simpa using hfull
      have happ : dequeAppend (y :: t) x = t ++ [x] := by
        rw [dequeAppend, if_neg hlt, List.tail_cons]
      rw [happ, ih (t ++ [x]) (by simp; omega)]
      have h1 : (t ++ [x]) ++ rest = t ++ x :: rest := by simp
      have h2 : (y :: t) ++ x :: rest = y :: (t ++ x :: rest) := by simp
      rw [h1, h2, lastN_cons_of_le y (by simp; omega)]

theorem lastN_dequeInit_append (l xs : List SiteStatus) :
    lastN QUEUE_MAXLEN (dequeInit l ++ xs) = lastN QUEUE_MAXLEN (l ++ xs) := by
  by_cases h : l.length ≤ QUEUE_MAXLEN
  · rw [dequeInit, lastN_of_le h]
  · unfold dequeInit lastN
    have hk : l.length - QUEUE_MAXLEN ≤ l.length := Nat.sub_le _ _
    rw [← List.drop_append_of_le_length hk, List.drop_drop]
    have harith : (l.length - QUEUE_MAXLEN)
        + (((l ++ xs).drop (l.length - QUEUE_MAXLEN)).length - QUEUE_MAXLEN)
        = (l ++ xs).length - QUEUE_MAXLEN := by
      simp only [List.length_drop, List.length_append]
      omega
    rw [harith]

/-- C4: the durable queue's capacity is 10,080 (7 days of minutes); after
any sequence of pushes (on top of any loaded contents) its length never
exceeds that capacity, and the retained snapshots are exactly the most
recent 10,080 pushed, oldest-first — so a push onto a full queue evicts
the oldest entry and never blocks. -/
theorem C4_bounded_queue :
    QUEUE_MAXLEN = 10080 ∧
    (∀ (l xs : List SiteStatus),
      (xs.foldl dequeAppend (dequeInit l)).length ≤ QUEUE_MAXLEN) ∧
    (∀ (l xs : List SiteStatus),
      xs.foldl dequeAppend (dequeInit l) = lastN QUEUE_MAXLEN (l ++ xs)) := by
  have key : ∀ (l xs : List SiteStatus),
      xs.foldl dequeAppend (dequeInit l) = lastN QUEUE_MAXLEN (l ++ xs) := by
    intro l xs
    rw [foldl_dequeAppend xs (dequeInit l) (lastN_length_le _ _),
      lastN_dequeInit_append]
  refine ⟨by decide, fun l xs => ?_, key⟩
  rw [key]
  exact lastN_length_le _ _

/-- C3 counterexample: the probe that records device pings (main.py's
`test_connection`) returns `-1` on an ICMP timeout with timeout 5, not
the timeout value 5 the claim states. -/
theorem C3_timeout_not_recorded_as_timeout :
    test_connection "meter1" 5 ⟨.timeoutExc, .noSuccess⟩ = .ok (-1) ∧
    (-1 : ℚ) ≠ 5 := by
  refine ⟨by rfl, by norm_num⟩

/-- C3 (amended): the probe main.py actually records with collapses both
failure kinds to `-1` (its HTTP branch catches the timeout inside
`httpx.TransportError`, its ICMP branch maps a failed ping to `-1`); it
is the separate, unimported network.py variant that returns the timeout
duration `t` on timeout and `-1` on a pre-deadline transport error. -/
theorem C3_failure_sentinels (host uri : String) (t : ℚ)
    (bh : HttpOutcome) (bi : PingOutcome)
    (hh1 : pyStartswith host "http://" = false)
    (hh2 : pyIn "://" host = false)
    (hu : pyStartswith uri "http://" = true) :
    (test_connection host t ⟨bh, .noSuccess⟩ = .ok (-1) ∧
     network.test_connection host t ⟨bh, .noSuccess⟩ = .ok t) ∧
    (∀ e, test_connection host t ⟨bh, .exc e⟩ = .ok (-1) ∧
          network.test_connection host t ⟨bh, .exc e⟩ = .ok (-1)) ∧
    (test_connection uri t ⟨.timeoutExc, bi⟩ = .ok (-1) ∧
     network.test_connection uri t ⟨.timeoutExc, bi⟩ = .ok t) ∧
    (test_connection uri t ⟨.transportErr, bi⟩ = .ok (-1) ∧
     network.test_connection uri t ⟨.transportErr, bi⟩ = .ok (-1)) := by
  unfold test_connection network.test_connection
  rw [hh1, hh2, hu]
  simp

/-- C3 witness: at a plain host, an HTTP URI and timeout 5, all eight
sentinel equations instantiate. -/
theorem C3_failure_sentinels_witness :
    (test_connection "meter1" 5 ⟨.ok 0, .noSuccess⟩ = .ok (-1) ∧
     network.test_connection "meter1" 5 ⟨.ok 0, .noSuccess⟩ = .ok 5) ∧
    (∀ e, test_connection "meter1" 5 ⟨.ok 0, .exc e⟩ = .ok (-1) ∧
          network.test_connection "meter1" 5 ⟨.ok 0, .exc e⟩ = .ok (-1)) ∧
    (test_connection "http://dev" 5 ⟨.timeoutExc, .ok 0⟩ = .ok (-1) ∧
     network.test_connection "http://dev" 5 ⟨.timeoutExc, .ok 0⟩ = .ok 5) ∧
    (test_connection "http://dev" 5 ⟨.transportErr, .ok 0⟩ = .ok (-1) ∧
     network.test_connection "http://dev" 5 ⟨.transportErr, .ok 0⟩ = .ok (-1)) :=
  C3_failure_sentinels "meter1" "http://dev" 5 (.ok 0) (.ok 0)
    (by decide) (by decide) (by decide)

/-- After all completions in `order`, the slot of any task listed in
`order` holds that task's own result; unlisted slots keep the initial
value. -/
theorem foldl_taskComplete (results : Nat → ℚ) (order : List Nat) :
    ∀ (acc : Nat → Option ℚ) (j : Nat),
      order.foldl (taskComplete results) acc j =
        if j ∈ order then some (results j) else acc j := by
  induction order with
  | nil => intro acc j; simp
  | cons i rest ih =>
    intro acc j
    rw [List.foldl_cons, ih]
    by_cases hj : j ∈ rest
    · simp [hj]
    · by_cases hji : j = i
      · subst hji
        simp [taskComplete, hj]
      · simp [taskComplete, hj, hji]

/-- If every task index below `n` completed, `asyncio.gather` returns
every task's own result, in task-creation order, whatever the completion
order was. -/
theorem gatherResults_covered (results : Nat → ℚ) (n : Nat) (order : List Nat)
    (h : ∀ j < n, j ∈ order) :
    gatherResults results n order = (List.range n).map (fun j => some (results j)) := by
  unfold gatherResults runCompletions
  apply List.map_congr_left
  intro j hj
  rw [foldl_taskComplete, if_pos (h j (List.mem_range.mp hj))]

theorem specPairedDevices_shift (f : Nat → ℚ) :
    ∀ (names : List String) (i : Nat),
      specPairedDevices (fun j => f (j + 1)) names i = specPairedDevices f names (i + 1) := by
  intro names
  induction names with
  | nil => intro i; rfl
  | cons nm rest ih =>
    intro i
    rw [specPairedDevices, specPairedDevices, ih]

/-- Zipping the in-order result vector back against the configured names
pairs each name with its own result. -/
theorem zipDevices_range (names : List String) :
    ∀ f : Nat → ℚ,
      zipDevices ((List.range names.length).map f) names = specPairedDevices f names 0 := by
  induction names with
  | nil => intro f; rfl
  | cons nm rest ih =>
    intro f
    rw [List.length_cons, List.range_succ_eq_map, List.map_cons, List.map_map]
    show (⟨nm, f 0⟩ : DeviceStatus) ::
        zipDevices ((List.range rest.length).map (f ∘ Nat.succ)) rest = _
    have : (f ∘ Nat.succ) = fun j => f (j + 1) := rfl
    rw [this, ih, specPairedDevices_shift, specPairedDevices]

/-- C7: whatever order the concurrent probe tasks complete in (as long as
all of them do), the gathered ping vector is in task-creation order, and
re-zipping it against the configured device names pairs each name with
that device's own probe result, in configuration order. -/
theorem C7_zip_correctness (site_devices : List String) (results : Nat → ℚ)
    (order : List Nat)
    (hcover : ∀ j < site_devices.length, j ∈ order) :
    ∃ pings : List ℚ,
      gatherResults results site_devices.length order = pings.map some ∧
      zipDevices pings site_devices = specPairedDevices results site_devices 0 := by
  refine ⟨(List.range site_devices.length).map results, ?_, zipDevices_range _ _⟩
  rw [gatherResults_covered results _ order hcover, List.map_map]
  rfl

/-- C7 witness: configured order [A, B, C], completion order [C, A, B],
results (10, 20, 30): the devices sequence is [(A,10), (B,20), (C,30)]. -/
theorem C7_zip_correctness_witness :
    (∃ pings : List ℚ,
      gatherResults exampleResults (["A", "B", "C"] : List String).length [2, 0, 1] =
        pings.map some ∧
      zipDevices pings ["A", "B", "C"] =
        specPairedDevices exampleResults ["A", "B", "C"] 0) ∧
    specPairedDevices exampleResults ["A", "B", "C"] 0 =
      [⟨"A", 10⟩, ⟨"B", 20⟩, ⟨"C", 30⟩] := by
  refine ⟨C7_zip_correctness ["A", "B", "C"] exampleResults [2, 0, 1] (by decide), ?_⟩
  show [(⟨"A", exampleResults 0⟩ : DeviceStatus), ⟨"B", exampleResults 1⟩,
    ⟨"C", exampleResults 2⟩] = _
  norm_num [exampleResults]

/-- The electric points for one meter: 3 when `energy_1h` is truthy in
Python (present and nonzero), else 2. -/
theorem electric_length (menv : MetricEnv) (st : SiteStatus) (m : MeterDeviceStatus) :
    (generate_electric_metrics_data menv st m).length =
      if energyTruthy m.energy_1h then 3 else 2 := by
  rw [generate_electric_metrics_data, energyTruthy.eq_def]
  cases m.energy_1h with
  | none => rfl
  | some n =>
    by_cases hn : n ≠ 0
    · simp [hn]
    · simp at hn
      simp [hn]

/-- Batch size of one published snapshot. -/
theorem report_metrics_length (menv : MetricEnv) (st : SiteStatus) :
    (report_metrics menv st).length =
      1 + st.devices.length +
      (st.meter_devices.map
        (fun m => if energyTruthy m.energy_1h then 3 else 2)).sum +
      st.switch_devices.length + st.relay_devices.length := by
  rw [report_metrics]
  simp only [List.length_cons, List.length_append, List.length_map,
    List.length_flatten, List.map_map, generate_switch_metrics_data,
    generate_relay_metrics_data, List.length_map]
  have : (st.meter_devices.map
      (List.length ∘ generate_electric_metrics_data menv st)).sum =
      (st.meter_devices.map
        (fun m => if energyTruthy m.energy_1h then 3 else 2)).sum := by
    congr 1
    apply List.map_congr_left
    intro m _
    exact electric_length menv st m
  rw [this]
  omega

/-- Every point of one meter's electric data carries the snapshot
timestamp and the site/device dimension. -/
theorem electric_mem (menv : MetricEnv) (st : SiteStatus) (m : MeterDeviceStatus)
    (p : MetricDatum) (hp : p ∈ generate_electric_metrics_data menv st m) :
    p.Timestamp = st.timestamp ∧ p.DimensionName = "SiteDevice" ∧
    p.DimensionValue = st.id ++ "/" ++ m.name := by
  obtain ⟨mname, mv, mc, me⟩ := m
  cases me with
  | none =>
    simp only [generate_electric_metrics_data, List.append_nil] at hp
    rcases List.mem_cons.mp hp with rfl | hp
    · exact ⟨rfl, rfl, rfl⟩
    rcases List.mem_cons.mp hp with rfl | hp
    · exact ⟨rfl, rfl, rfl⟩
    simp at hp
  | some n =>
    simp only [generate_electric_metrics_data] at hp
    rcases List.mem_append.mp hp with hp | hp
    · rcases List.mem_cons.mp hp with rfl | hp
      · exact ⟨rfl, rfl, rfl⟩
      rcases List.mem_cons.mp hp with rfl | hp
      · exact ⟨rfl, rfl, rfl⟩
      simp at hp
    · by_cases hn : (n != 0) = true
      · rw [if_pos hn] at hp
        rcases List.mem_cons.mp hp with rfl | hp
        · exact ⟨rfl, rfl, rfl⟩
        simp at hp
      · rw [if_neg hn] at hp
        simp at hp

/-- Every point of the batch carries the snapshot's single timestamp and
a `SiteDevice` dimension valued `site_id ++ "/" ++ device_name` for one of
the snapshot's device names (or the pseudo-device `internet`). -/
theorem report_metrics_mem (menv : MetricEnv) (st : SiteStatus)
    (p : MetricDatum) (hp : p ∈ report_metrics menv st) :
    p.Timestamp = st.timestamp ∧ p.DimensionName = "SiteDevice" ∧
    ∃ nm ∈ snapshotNames st, p.DimensionValue = st.id ++ "/" ++ nm := by
  rw [report_metrics] at hp
  rcases List.mem_cons.mp hp with rfl | hp
  · exact ⟨rfl, rfl, "internet", List.mem_cons_self _ _, rfl⟩
  rcases List.mem_append.mp hp with hp | hrel
  rcases List.mem_append.mp hp with hp | hsw
  rcases List.mem_append.mp hp with hdev | hmet
  · obtain ⟨d, hd, rfl⟩ := List.mem_map.mp hdev
    refine ⟨rfl, rfl, d.name, ?_, rfl⟩
    exact List.mem_cons_of_mem _ (List.mem_append_left _
      (List.mem_append_left _ (List.mem_append_left _ (List.mem_map_of_mem _ hd))))
  · obtain ⟨lst, hlst, hplst⟩ := List.mem_flatten.mp hmet
    obtain ⟨m, hm, rfl⟩ := List.mem_map.mp hlst
    obtain ⟨ht, hd, hv⟩ := electric_mem menv st m p hplst
    refine ⟨ht, hd, m.name, ?_, hv⟩
    exact List.mem_cons_of_mem _ (List.mem_append_left _
      (List.mem_append_left _ (List.mem_append_right _ (List.mem_map_of_mem _ hm))))
  · rw [generate_switch_metrics_data] at hsw
    obtain ⟨d, hd, rfl⟩ := List.mem_map.mp hsw
    refine ⟨rfl, rfl, d.name, ?_, rfl⟩
    exact List.mem_cons_of_mem _ (List.mem_append_left _
      (List.mem_append_right _ (List.mem_map_of_mem _ hd)))
  · rw [generate_relay_metrics_data] at hrel
    obtain ⟨d, hd, rfl⟩ := List.mem_map.mp hrel
    refine ⟨rfl, rfl, d.name, ?_, rfl⟩
    exact List.mem_cons_of_mem _
      (List.mem_append_right _ (List.mem_map_of_mem _ hd))

/-- C6 counterexample: a snapshot whose meter has `energy_1h = Some 0`
(present, not `None`): the claim demands an energy point, but the batch
has only 3 points (internet, voltage, current) and none named by the
energy metric name. -/
theorem C6_energy_zero_omitted :
    (∃ m ∈ statusX.meter_devices, m.energy_1h ≠ none) ∧
    (report_metrics menvX statusX).length = 3 ∧
    ∀ p ∈ report_metrics menvX statusX, p.MetricName ≠ "ENERGY" := by
  refine ⟨⟨⟨"m", 12, 3, some 0⟩, by simp [statusX], by simp⟩, rfl, ?_⟩
  decide

/-- C6 (amended): the batch holds exactly one internet point, one point
per network device, two points per meter plus a third energy point
exactly when `energy_1h` is present *and nonzero* (Python truthiness of
`int | None`), one point per switch channel and one per relay channel;
every point carries the snapshot's single timestamp and a `SiteDevice`
dimension valued `{site_id}/{device_name}`. -/
theorem C6_batch_shape (menv : MetricEnv) (status : SiteStatus) :
    (report_metrics menv status).length =
      1 + status.devices.length +
      (status.meter_devices.map
        (fun m => if energyTruthy m.energy_1h then 3 else 2)).sum +
      status.switch_devices.length + status.relay_devices.length ∧
    ∀ p ∈ report_metrics menv status,
      p.Timestamp = status.timestamp ∧ p.DimensionName = "SiteDevice" ∧
      ∃ nm ∈ snapshotNames status, p.DimensionValue = status.id ++ "/" ++ nm :=
  ⟨report_metrics_length menv status, report_metrics_mem menv status⟩

/-- Inversion of a successful aggregation: the snapshot's fields are
exactly the stage results, and in particular the meter entries are the
filter-mapped probe outcomes (with `energy_1h` left at its default). -/
theorem check_devices_ok_parts (env : Env) (b : Behaviours) (st : SiteStatus)
    (h : check_devices env b = .ok st) :
    ∃ v pings sw rl,
      test_connection env.internet_host env.device_timeout b.internet = .ok v ∧
      env.site_devices.mapM
        (fun name => test_connection name env.device_timeout (b.net name)) = .ok pings ∧
      shellyStage env.shelly_devices b.shellyCfg b.shellySt = .ok (sw, rl) ∧
      st = { id := env.site_id, timestamp := b.now, internet_ping := v,
             devices := zipDevices pings env.site_devices,
             meter_devices := meterDevices env.pzem_devices b.meter,
             switch_devices := sw, relay_devices := rl } := by
  unfold check_devices at h
  cases h1 : test_connection env.internet_host env.device_timeout b.internet with
  | error e => rw [h1] at h; simp [bind, Except.bind] at h
  | ok v =>
    rw [h1] at h
    cases h2 : env.site_devices.mapM
        (fun name => test_connection name env.device_timeout (b.net name)) with
    | error e => rw [h2] at h; simp [bind, Except.bind] at h
    | ok pings =>
      rw [h2] at h
      cases h3 : shellyStage env.shelly_devices b.shellyCfg b.shellySt with
      | error e => rw [h3] at h; simp [bind, Except.bind] at h
      | ok swrl =>
        obtain ⟨sw, rl⟩ := swrl
        rw [h3] at h
        simp only [bind, Except.bind, Except.ok.injEq] at h
        exact ⟨v, pings, sw, rl, rfl, rfl, rfl, h.symm⟩

/-- Composition direction: successful stages assemble the snapshot. -/
theorem check_devices_eq (env : Env) (b : Behaviours) {v : ℚ} {pings : List ℚ}
    {sw : List SwitchDeviceStatus} {rl : List RelayDeviceStatus}
    (h1 : test_connection env.internet_host env.device_timeout b.internet = .ok v)
    (h2 : env.site_devices.mapM
      (fun name => test_connection name env.device_timeout (b.net name)) = .ok pings)
    (h3 : shellyStage env.shelly_devices b.shellyCfg b.shellySt = .ok (sw, rl)) :
    check_devices env b = .ok
      { id := env.site_id, timestamp := b.now, internet_ping := v,
        devices := zipDevices pings env.site_devices,
        meter_devices := meterDevices env.pzem_devices b.meter,
        switch_devices := sw, relay_devices := rl } := by
  unfold check_devices
  rw [h1, h2, h3]
  rfl

/-- The aggregator never sets `energy_1h`: every meter entry it produces
keeps the default `None`. -/
theorem meterDevices_energy_none (pzem : List (String × Nat))
    (meter : Nat → MeterOutcome) (m : MeterDeviceStatus)
    (hm : m ∈ meterDevices pzem meter) : m.energy_1h = none := by
  rw [meterDevices] at hm
  obtain ⟨na, _, hna⟩ := List.mem_filterMap.mp hm
  obtain ⟨a, _, hfa⟩ := Option.map_eq_some'.mp hna
  rw [← hfa]

theorem sum_map_two (l : List MeterDeviceStatus) :
    (l.map (fun _ => (2 : Nat))).sum = 2 * l.length := by
  induction l with
  | nil => rfl
  | cons a rest ih => simp [ih]; omega

/-- With every meter's `energy_1h` at `None`, each batch point is named
by one of the five non-energy metric names. -/
theorem report_metrics_names_no_energy (menv : MetricEnv) (st : SiteStatus)
    (hnone : ∀ m ∈ st.meter_devices, m.energy_1h = none)
    (p : MetricDatum) (hp : p ∈ report_metrics menv st) :
    p.MetricName = menv.aws_metric_name ∨
    p.MetricName = menv.aws_metric_name_voltage ∨
    p.MetricName = menv.aws_metric_name_current ∨
    p.MetricName = menv.aws_metric_name_switch ∨
    p.MetricName = menv.aws_metric_name_relay := by
  rw [report_metrics] at hp
  rcases List.mem_cons.mp hp with rfl | hp
  · exact Or.inl rfl
  rcases List.mem_append.mp hp with hp | hrel
  rcases List.mem_append.mp hp with hp | hsw
  rcases List.mem_append.mp hp with hdev | hmet
  · obtain ⟨d, _, rfl⟩ := List.mem_map.mp hdev
    exact Or.inl rfl
  · obtain ⟨lst, hlst, hplst⟩ := List.mem_flatten.mp hmet
    obtain ⟨m, hm, rfl⟩ := List.mem_map.mp hlst
    rw [generate_electric_metrics_data, hnone m hm, List.append_nil] at hplst
    rcases List.mem_cons.mp hplst with rfl | hplst
    · exact Or.inr (Or.inl rfl)
    rcases List.mem_cons.mp hplst with rfl | hplst
    · exact Or.inr (Or.inr (Or.inl rfl))
    simp at hplst
  · rw [generate_switch_metrics_data] at hsw
    obtain ⟨d, _, rfl⟩ := List.mem_map.mp hsw
    exact Or.inr (Or.inr (Or.inr (Or.inl rfl)))
  · rw [generate_relay_metrics_data] at hrel
    obtain ⟨d, _, rfl⟩ := List.mem_map.mp hrel
    exact Or.inr (Or.inr (Or.inr (Or.inr rfl)))

/-- C9: every snapshot the aggregator produces has `energy_1h = None` on
each meter entry (the probe's energy field is never copied), so each
meter contributes exactly two points, the batch holds
`1 + devices + 2*meters + switches + relays` points, and no point is
named by the energy metric name (every point carries one of the five
other names). -/
theorem C9_no_energy_point (env : Env) (b : Behaviours) (st : SiteStatus)
    (menv : MetricEnv) (h : check_devices env b = .ok st) :
    (∀ m ∈ st.meter_devices, m.energy_1h = none) ∧
    (∀ m ∈ st.meter_devices,
      (generate_electric_metrics_data menv st m).length = 2) ∧
    (report_metrics menv st).length =
      1 + st.devices.length + 2 * st.meter_devices.length +
      st.switch_devices.length + st.relay_devices.length ∧
    ∀ p ∈ report_metrics menv st,
      p.MetricName = menv.aws_metric_name ∨
      p.MetricName = menv.aws_metric_name_voltage ∨
      p.MetricName = menv.aws_metric_name_current ∨
      p.MetricName = menv.aws_metric_name_switch ∨
      p.MetricName = menv.aws_metric_name_relay := by
  have hnone : ∀ m ∈ st.meter_devices, m.energy_1h = none := by
    obtain ⟨v, pings, sw, rl, _, _, _, hst⟩ := check_devices_ok_parts env b st h
    intro m hm
    rw [hst] at hm
    exact meterDevices_energy_none env.pzem_devices b.meter m hm
  have hlen2 : ∀ m ∈ st.meter_devices,
      (generate_electric_metrics_data menv st m).length = 2 := by
    intro m hm
    rw [electric_length, hnone m hm]
    rfl
  refine ⟨hnone, hlen2, ?_, report_metrics_names_no_energy menv st hnone⟩
  rw [report_metrics_length]
  have : (st.meter_devices.map
      (fun m => if energyTruthy m.energy_1h then 3 else 2)).sum =
      (st.meter_devices.map (fun _ => (2 : Nat))).sum := by
    congr 1
    apply List.map_congr_left
    intro m hm
    rw [hnone m hm]
    rfl
  rw [this, sum_map_two]

/-- C9 witness: a configuration with one meter whose probe succeeds with
a nonzero energy register: the snapshot still records `energy_1h = None`
and the batch has `1 + 0 + 2*1 + 0 + 0 = 3` points, none energy-named. -/
theorem C9_no_energy_point_witness :
    (∀ m ∈ statusM.meter_devices, m.energy_1h = none) ∧
    (∀ m ∈ statusM.meter_devices,
      (generate_electric_metrics_data menvX statusM m).length = 2) ∧
    (report_metrics menvX statusM).length =
      1 + statusM.devices.length + 2 * statusM.meter_devices.length +
      statusM.switch_devices.length + statusM.relay_devices.length ∧
    ∀ p ∈ report_metrics menvX statusM,
      p.MetricName = menvX.aws_metric_name ∨
      p.MetricName = menvX.aws_metric_name_voltage ∨
      p.MetricName = menvX.aws_metric_name_current ∨
      p.MetricName = menvX.aws_metric_name_switch ∨
      p.MetricName = menvX.aws_metric_name_relay :=
  C9_no_energy_point envM behavM statusM menvX rfl

/-- C2 counterexample: with a configured device URI of an unsupported
scheme, the aggregation raises (`ValueError` from `test_connection`,
src/main.py line 125) instead of returning a `SiteStatus`. -/
theorem C2_unsupported_scheme_raises :
    check_devices envBad behavBad = .error .valueError := by rfl

theorem netCaught_ok (uri : String) (t : ℚ) (b : NetBehaviour)
    (h : netCaught uri b = true) : ∃ v, test_connection uri t b = .ok v := by
  rw [netCaught] at h
  rw [test_connection]
  by_cases hu : pyStartswith uri "http://"
  · rw [if_pos hu] at h
    simp only [hu, if_true]
    cases hb : b.http with
    | ok d => exact ⟨d, rfl⟩
    | timeoutExc => exact ⟨-1, rfl⟩
    | transportErr => exact ⟨-1, rfl⟩
    | otherExc e => rw [hb] at h; simp at h
  · rw [if_neg hu] at h
    have hin : pyIn "://" uri = false := by simpa using h
    simp only [hu, hin, Bool.false_eq_true, if_false]
    cases b.icmp with
    | ok rtt => exact ⟨rtt, rfl⟩
    | noSuccess => exact ⟨-1, rfl⟩
    | exc e => exact ⟨-1, rfl⟩

theorem mapM_ok_of_forall_ok {α β : Type} (f : α → Except PyErr β) :
    ∀ l : List α, (∀ x ∈ l, ∃ y, f x = .ok y) →
      ∃ ys, l.mapM f = .ok ys ∧ ys.length = l.length := by
  intro l
  induction l with
  | nil => intro _; exact ⟨[], rfl, rfl⟩
  | cons a rest ih =>
    intro hall
    obtain ⟨y, hy⟩ := hall a (List.mem_cons_self a rest)
    obtain ⟨ys, hys, hlen⟩ := ih (fun x hx => hall x (List.mem_cons_of_mem a hx))
    refine ⟨y :: ys, ?_, by simp [hlen]⟩
    rw [← List.mapM'_eq_mapM] at hys ⊢
    simp [List.mapM', hy, hys, bind, Except.bind, pure, Except.pure]

theorem zipDevices_names :
    ∀ (names : List String) (pings : List ℚ), pings.length = names.length →
      (zipDevices pings names).map DeviceStatus.name = names := by
  intro names
  induction names with
  | nil => intro pings _; rw [zipDevices]; simp
  | cons nm rest ih =>
    intro pings h
    cases pings with
    | nil => simp at h
    | cons p ps =>
      have hih := ih ps (by simpa using h)
      rw [zipDevices] at hih ⊢
      rw [List.zip_cons_cons, List.map_cons, List.map_cons, hih]

theorem shellyStage_ok (hosts : List String) (bc bs : String → HttpResp)
    (h : ∀ hst ∈ hosts, shellyCaught (bc hst) (bs hst) = true) :
    ∃ sw rl, shellyStage hosts bc bs = .ok (sw, rl) := by
  have hall : ∀ hst ∈ hosts, ∃ y, shellyHost (bc hst) (bs hst) = .ok y := by
    intro hst hh
    have hc := h hst hh
    rw [shellyCaught] at hc
    cases hy : shellyHost (bc hst) (bs hst) with
    | ok y => exact ⟨y, rfl⟩
    | error e => rw [hy] at hc; simp at hc
  obtain ⟨parts, hparts, _⟩ := mapM_ok_of_forall_ok _ hosts hall
  refine ⟨(parts.map Prod.fst).flatten, (parts.map Prod.snd).flatten, ?_⟩
  rw [shellyStage, hparts]
  rfl

/-- C2 (amended): for every configuration whose probe endpoints are plain
hosts or `http://` URIs, and all probe behaviours whose HTTP faults stay
inside `httpx.TransportError` and whose shelly hosts either fail at
transport level or answer well-formed responses, `check_devices` returns
a `SiteStatus` without raising; every meter probe fault (any exception,
via the bare `except` in `pzem_measure`) is downgraded to omission of
that meter only, the network devices are all recorded in configuration
order, and the switch/relay entries are a function of the shelly
behaviours alone — so a fault in one meter probe cannot prevent other
meter or switch/relay probes from being recorded. -/
theorem C2_aggregation_no_raise (env : Env) (b : Behaviours)
    (hint : netCaught env.internet_host b.internet = true)
    (hnet : ∀ d ∈ env.site_devices, netCaught d (b.net d) = true)
    (hsh : ∀ hst ∈ env.shelly_devices,
      shellyCaught (b.shellyCfg hst) (b.shellySt hst) = true) :
    ∃ st : SiteStatus,
      check_devices env b = .ok st ∧
      st.meter_devices = meterDevices env.pzem_devices b.meter ∧
      st.devices.map DeviceStatus.name = env.site_devices ∧
      shellyStage env.shelly_devices b.shellyCfg b.shellySt =
        .ok (st.switch_devices, st.relay_devices) := by
  obtain ⟨v, h1⟩ := netCaught_ok env.internet_host env.device_timeout b.internet hint
  have hdev : ∀ d ∈ env.site_devices,
      ∃ y, test_connection d env.device_timeout (b.net d) = .ok y :=
    fun d hd => netCaught_ok d env.device_timeout (b.net d) (hnet d hd)
  obtain ⟨pings, h2, hlen⟩ := mapM_ok_of_forall_ok _ env.site_devices hdev
  obtain ⟨sw, rl, h3⟩ := shellyStage_ok env.shelly_devices b.shellyCfg b.shellySt hsh
  exact ⟨_, check_devices_eq env b h1 h2 h3, rfl,
    zipDevices_names env.site_devices pings hlen, h3⟩

/-- C2 witness: one `http://` device whose GET fails with a transport
error, one meter whose probe raises, one unreachable shelly host — the
aggregation still returns a snapshot, with the failing meter omitted and
the network device recorded. -/
theorem C2_aggregation_no_raise_witness :
    ∃ st : SiteStatus,
      check_devices envW behavW = .ok st ∧
      st.meter_devices = meterDevices envW.pzem_devices behavW.meter ∧
      st.devices.map DeviceStatus.name = envW.site_devices ∧
      shellyStage envW.shelly_devices behavW.shellyCfg behavW.shellySt =
        .ok (st.switch_devices, st.relay_devices) :=
  C2_aggregation_no_raise envW behavW (by decide) (by decide) (by decide)
